import Mathlib

/-!
# Verification of the `github_issue_creator` client

A shallow embedding of `src/github_issue_creator/github_issue_creator.py`
together with its value types
(`src/issue_creator/models/issue.py`, `src/issue_creator/models/issue_response.py`)
and its error type (`src/issue_creator/exceptions/exceptions.py`).

Modelling decisions, stated once here:

* JSON values are the inductive `Json`; JSON numbers are restricted to
  integers, which covers every field the client reads (`id`, `number` are
  integers; everything else is a string or an object).  Python `dict.get`
  semantics are embedded exactly: `dictGet o k` is `o.get(k)` (absent key
  gives `None`, embedded as `Json.null`, since a parsed JSON `null` and
  Python `None` are the same object), and `dictGetD o k d` is `o.get(k, d)`
  (the default is used only when the key is absent, not when it maps to
  `null`).
* The HTTP transport (`requests`) is a parameter: `create` receives the
  outcome of `self._session.post(...)` as a value — either a network-level
  exception detail (`requests.RequestException` that is not an `HTTPError`)
  or a `Response` carrying a status code, the raw text, and the parsed JSON
  body (modelling `response.text` and `response.json()`).
  `response.raise_for_status()` raises `requests.HTTPError` exactly when
  `400 ≤ status_code < 600`, which is the `requests` library's check.
* Python exceptions escaping `create` are the `Except` error channel:
  `CreateError.creation` is the library's own `IssueCreationError`,
  `CreateError.validation` is a pydantic `ValidationError` raised while
  constructing `IssueResponse`, and `CreateError.runtime` is an untyped
  runtime error (`AttributeError`) raised while evaluating the constructor
  arguments, e.g. `None.get("login")`.  Argument evaluation order follows
  Python: the `author=` expression on line 97 is evaluated before pydantic
  validates anything.
* pydantic field validation is embedded as: a `str` field accepts exactly a
  JSON string, an `int` field exactly a JSON (integer) number, and
  `Optional[str]` a JSON string or `null`/absent.  No claim depends on
  pydantic's lax coercions of other primitives, so they are not modelled.
-/

/-- A parsed JSON value (numbers restricted to integers, see the header). -/
inductive Json where
  | null
  | bool (b : Bool)
  | num (n : Int)
  | str (s : String)
  | arr (elems : List Json)
  | obj (fields : List (String × Json))
deriving Repr, Inhabited

/-- Python `o.get(k)` without the `None` collapse: `none` when `k` is absent,
`some v` when present (first occurrence wins; parsed JSON objects have
distinct keys). -/
def dictLookup (o : List (String × Json)) (k : String) : Option Json :=
  (o.find? (fun p => p.1 == k)).map Prod.snd

/-- Python `o.get(k)`: an absent key yields `None`, which is the same value
as a present JSON `null`, so both embed to `Json.null`. -/
def dictGet (o : List (String × Json)) (k : String) : Json :=
  (dictLookup o k).getD Json.null

/-- Python `o.get(k, d)`: the default is used only when the key is absent. -/
def dictGetD (o : List (String × Json)) (k : String) (d : Json) : Json :=
  (dictLookup o k).getD d

/-- The `Issue` pydantic model (`models/issue.py`): `title` and `body`
required, `labels` and `assignees` defaulting to the empty list. -/
structure Issue where
  title : String
  body : String
  labels : List String := []
  assignees : List String := []
deriving Repr, DecidableEq

/-- `Issue.model_dump()`: pydantic serialises every field, in declaration
order, with empty lists becoming empty arrays (never omitted keys). -/
def Issue.model_dump (i : Issue) : List (String × Json) :=
  [ ("title", Json.str i.title)
  , ("body", Json.str i.body)
  , ("labels", Json.arr (i.labels.map Json.str))
  , ("assignees", Json.arr (i.assignees.map Json.str)) ]

/-- The `IssueResponse` pydantic model (`models/issue_response.py`):
all fields required except `author : Optional[str] = None`. -/
structure IssueResponse where
  repository_url : String
  issue_url : String
  issue_id : Int
  issue_number : Int
  issue_title : String
  issue_state : String
  created_at : String
  author : Option String := none
deriving Repr, DecidableEq

/-- The `IssueCreationError` exception (`exceptions/exceptions.py`):
a message plus optional status code and response text, both `None` by
default. -/
structure IssueCreationError where
  message : String
  status_code : Option Int := none
  response_text : Option String := none
deriving Repr, DecidableEq

/-- `IssueCreationError.__str__`: starts from
`"IssueCreationError: " + message` and appends the status-code and
response-text parts under Python truthiness (`if self.status_code:` is
false for `None` and for `0`; `if self.response_text:` is false for `None`
and for the empty string). -/
def IssueCreationError.toDisplayString (e : IssueCreationError) : String :=
  let base_msg := "IssueCreationError: " ++ e.message
  let with_status :=
    match e.status_code with
    | some n => if n = 0 then base_msg else base_msg ++ " | Status code: " ++ toString n
    | none => base_msg
  match e.response_text with
  | some t => if t = "" then with_status else with_status ++ " | Response: " ++ t
  | none => with_status

/-- An HTTP response as `create` observes it: `status_code` and `text` as in
`requests.Response`, and `body` the value `response.json()` parses out of
`text` (claims only concern responses whose text is valid JSON). -/
structure Response where
  status_code : Int
  text : String
  body : Json
deriving Repr, Inhabited

/-- An exception escaping `create`, by kind (see the header). -/
inductive CreateError where
  | creation (e : IssueCreationError)
  | validation (field : String)
  | runtime
deriving Repr

/-- Whether a `create` outcome is the library's own `IssueCreationError`
(the spec's `SubmissionError`). -/
def isSubmissionError : Except CreateError IssueResponse → Bool
  | Except.error (CreateError.creation _) => true
  | _ => false

/-- Whether a `create` outcome is a pydantic validation failure. -/
def isValidationFailure : Except CreateError IssueResponse → Bool
  | Except.error (CreateError.validation _) => true
  | _ => false

/-- pydantic validation of a `str` field: accepts exactly a JSON string. -/
def vStr (field : String) : Json → Except CreateError String
  | Json.str s => Except.ok s
  | _ => Except.error (CreateError.validation field)

/-- pydantic validation of an `int` field: accepts exactly a JSON integer. -/
def vInt (field : String) : Json → Except CreateError Int
  | Json.num n => Except.ok n
  | _ => Except.error (CreateError.validation field)

/-- pydantic validation of an `Optional[str]` field: `null` (also standing
for an absent key, see `dictGet`) becomes `none`. -/
def vOptStr (field : String) : Json → Except CreateError (Option String)
  | Json.null => Except.ok none
  | Json.str s => Except.ok (some s)
  | _ => Except.error (CreateError.validation field)

/-- The `IssueResponse(...)` pydantic constructor call on lines 89-98:
`repository_url` is an already-synthesised string; every other argument is
a raw value pulled out of the response JSON and validated against its
declared field type. -/
def IssueResponse.validate (repository_url : String)
    (issue_url issue_id issue_number issue_title issue_state created_at author : Json) :
    Except CreateError IssueResponse := do
  let u ← vStr "issue_url" issue_url
  let i ← vInt "issue_id" issue_id
  let n ← vInt "issue_number" issue_number
  let t ← vStr "issue_title" issue_title
  let s ← vStr "issue_state" issue_state
  let c ← vStr "created_at" created_at
  let a ← vOptStr "author" author
  pure ⟨repository_url, u, i, n, t, s, c, a⟩

/-- Line 97, `response_data.get("user", {}).get("login")`, given the value
of `response_data.get("user", {})`: the chained `.get("login")` exists only
on a dict, so any non-object value (in particular `null`, i.e. Python
`None`) raises `AttributeError`. -/
def getLogin : Json → Except Unit Json
  | Json.obj o => Except.ok (dictGet o "login")
  | _ => Except.error ()

/-- The full author-extraction expression of line 97 on an object body. -/
def extractAuthor (o : List (String × Json)) : Except Unit Json :=
  getLogin (dictGetD o "user" (Json.obj []))

/-- The outcome of `self._session.post(...)`: either a `Response`, or the
detail string of a network-level `requests.RequestException`. -/
def PostOutcome : Type := Except String Response

/-- `IssueCreator.create` (lines 53-98), with the transport as a parameter:
`post` maps the serialised request body to the outcome of the POST.
Branches, in source order: a network-level exception becomes
`IssueCreationError("Request failed: <detail>")`; `raise_for_status`
raising (status in 400..599) becomes
`IssueCreationError("HTTP error occurred while creating the issue.",
status, text)`; a remaining status other than 201 becomes
`IssueCreationError("Failed to create issue.", status, text)`; otherwise
the JSON body is read with `.get` and fed to the `IssueResponse`
constructor.  A non-object body makes the first `.get` raise
(`CreateError.runtime`), and a `user` value that is neither absent nor an
object makes line 97 raise (`CreateError.runtime`) before pydantic
validation runs. -/
def IssueCreator.create (repo_owner repo_name : String) (issue : Issue)
    (post : List (String × Json) → PostOutcome) : Except CreateError IssueResponse :=
  let data := issue.model_dump
  match post data with
  | Except.error detail =>
      Except.error (CreateError.creation
        { message := "Request failed: " ++ detail })
  | Except.ok response =>
      if 400 ≤ response.status_code ∧ response.status_code < 600 then
        Except.error (CreateError.creation
          { message := "HTTP error occurred while creating the issue."
            status_code := some response.status_code
            response_text := some response.text })
      else if response.status_code ≠ 201 then
        Except.error (CreateError.creation
          { message := "Failed to create issue."
            status_code := some response.status_code
            response_text := some response.text })
      else
        match response.body with
        | Json.obj o =>
            match extractAuthor o with
            | Except.error _ => Except.error CreateError.runtime
            | Except.ok authorJson =>
                IssueResponse.validate
                  ("https://github.com/" ++ repo_owner ++ "/" ++ repo_name)
                  (dictGet o "html_url") (dictGet o "id") (dictGet o "number")
                  (dictGet o "title") (dictGet o "state") (dictGet o "created_at")
                  authorJson
        | _ => Except.error CreateError.runtime

/-- A Python value passed as the `proxy` argument, with its truthiness and
dict-ness; `pyNone` is the default `None`. -/
inductive PyVal where
  | pyNone
  | pyDict (entries : List (String × String))
  | pyStr (s : String)
  | pyInt (n : Int)
  | pyList (items : List String)
deriving Repr, DecidableEq

/-- Python truthiness: `None`, `0`, and empty collections are falsy. -/
def PyVal.truthy : PyVal → Bool
  | PyVal.pyNone => false
  | PyVal.pyDict d => !d.isEmpty
  | PyVal.pyStr s => !s.isEmpty
  | PyVal.pyInt n => n != 0
  | PyVal.pyList xs => !xs.isEmpty

/-- `isinstance(v, dict)`. -/
def PyVal.isDict : PyVal → Bool
  | PyVal.pyDict _ => true
  | _ => false

/-- The entries of a dict value (only read on the dict branch). -/
def PyVal.dictEntries : PyVal → List (String × String)
  | PyVal.pyDict d => d
  | _ => []

/-- Python `not x` on a string-or-None credential argument: true for `None`
and for the empty string. -/
def strFalsy : Option String → Bool
  | none => true
  | some s => s.isEmpty

/-- A fully constructed `IssueCreator`: the stored configuration and the
`requests.Session` state (`proxies` and `headers`) the constructor set up.
A session exists exactly when construction returned this state. -/
structure CreatorState where
  token : String
  repo_owner : String
  repo_name : String
  session_proxies : List (String × String)
  session_headers : List (String × String)
deriving Repr, DecidableEq

/-- The headers `__init__` installs on the session (lines 49-51). -/
def sessionHeaders (token : String) : List (String × String) :=
  [ ("Authorization", "token " ++ token)
  , ("Accept", "application/vnd.github.v3+json") ]

/-- `IssueCreator.__init__` (lines 15-51).  The three credential checks use
Python `not` (rejecting `None` and the empty string); the proxy check sits
inside `if self._proxy:` and so only a *truthy* non-dict proxy raises; the
`requests.Session()` is created only after every check that can raise has
passed, so an error outcome means no session was ever created. -/
def IssueCreator.init (token repo_owner repo_name : Option String)
    (proxy : PyVal) : Except String CreatorState :=
  if strFalsy token then Except.error "GitHub token is required."
  else if strFalsy repo_owner then Except.error "Repository owner is required."
  else if strFalsy repo_name then Except.error "Repository name is required."
  else
    let t := token.getD ""
    let ow := repo_owner.getD ""
    let rn := repo_name.getD ""
    if proxy.truthy then
      if proxy.truthy && !proxy.isDict then Except.error "Proxy must be a dictionary"
      else Except.ok ⟨t, ow, rn, proxy.dictEntries, sessionHeaders t⟩
    else Except.ok ⟨t, ow, rn, [], sessionHeaders t⟩

/-! ## Claim theorems -/

/-- Claim C4: for every network-level failure raised by the transport with
detail text `d`, `create` fails with message exactly `"Request failed: "`
followed by `d`, and with status code and response body both absent. -/
theorem create_network_failure (repo_owner repo_name : String) (issue : Issue)
    (d : String) :
    IssueCreator.create repo_owner repo_name issue (fun _ => Except.error d)
      = Except.error (CreateError.creation
          { message := "Request failed: " ++ d
            status_code := none
            response_text := none }) := by
  rfl

/-- Claim C2: for every response on which `raise_for_status` raises (status
in 400..599), `create` fails with message exactly
`"HTTP error occurred while creating the issue."` and with status code and
response body equal to (and present from) the response's. -/
theorem create_http_error (repo_owner repo_name : String) (issue : Issue)
    (response : Response)
    (h : 400 ≤ response.status_code ∧ response.status_code < 600) :
    IssueCreator.create repo_owner repo_name issue (fun _ => Except.ok response)
      = Except.error (CreateError.creation
          { message := "HTTP error occurred while creating the issue."
            status_code := some response.status_code
            response_text := some response.text }) := by
  simp [IssueCreator.create, h]

/-- Witness for C2 at a concrete 400 response. -/
theorem create_http_error_witness :
    IssueCreator.create "owner" "repo" ⟨"t", "b", [], []⟩
        (fun _ => Except.ok ⟨400, "bad request", Json.null⟩)
      = Except.error (CreateError.creation
          { message := "HTTP error occurred while creating the issue."
            status_code := some 400
            response_text := some "bad request" }) :=
  create_http_error "owner" "repo" ⟨"t", "b", [], []⟩
    ⟨400, "bad request", Json.null⟩ (by constructor <;> decide)

/-- Claim C3: for every response whose status is not 201 and on which
`raise_for_status` does not raise (e.g. status 200), `create` fails with
message exactly `"Failed to create issue."` and with the response's status
code and raw body. -/
theorem create_wrong_status (repo_owner repo_name : String) (issue : Issue)
    (response : Response)
    (hne : ¬(400 ≤ response.status_code ∧ response.status_code < 600))
    (h201 : response.status_code ≠ 201) :
    IssueCreator.create repo_owner repo_name issue (fun _ => Except.ok response)
      = Except.error (CreateError.creation
          { message := "Failed to create issue."
            status_code := some response.status_code
            response_text := some response.text }) := by
  simp [IssueCreator.create, hne, h201]

/-- Witness for C3 at a concrete 200 response. -/
theorem create_wrong_status_witness :
    IssueCreator.create "owner" "repo" ⟨"t", "b", [], []⟩
        (fun _ => Except.ok ⟨200, "ok body", Json.null⟩)
      = Except.error (CreateError.creation
          { message := "Failed to create issue."
            status_code := some 200
            response_text := some "ok body" }) :=
  create_wrong_status "owner" "repo" ⟨"t", "b", [], []⟩
    ⟨200, "ok body", Json.null⟩ (by decide) (by decide)

/-- Claim C7: whenever the token, the owner, or the repository name is
absent (`None`) or empty, construction fails with the corresponding
`ValueError` — and hence, since the session is created only on the success
path of `IssueCreator.init`, no session is created. -/
theorem init_missing_credentials (token repo_owner repo_name : Option String)
    (proxy : PyVal)
    (h : strFalsy token = true ∨ strFalsy repo_owner = true ∨ strFalsy repo_name = true) :
    IssueCreator.init token repo_owner repo_name proxy
        = Except.error "GitHub token is required."
      ∨ IssueCreator.init token repo_owner repo_name proxy
        = Except.error "Repository owner is required."
      ∨ IssueCreator.init token repo_owner repo_name proxy
        = Except.error "Repository name is required." := by
  unfold IssueCreator.init
  rcases h with h | h | h <;> simp [h] <;> split <;> simp <;> split <;> simp

/-- Witness for C7 with an absent token. -/
theorem init_missing_credentials_witness :
    IssueCreator.init none (some "owner") (some "repo") PyVal.pyNone
        = Except.error "GitHub token is required."
      ∨ IssueCreator.init none (some "owner") (some "repo") PyVal.pyNone
        = Except.error "Repository owner is required."
      ∨ IssueCreator.init none (some "owner") (some "repo") PyVal.pyNone
        = Except.error "Repository name is required." :=
  init_missing_credentials none (some "owner") (some "repo") PyVal.pyNone
    (Or.inl rfl)

/-- Claim C8: for every Issue record, the serialised request body has
exactly the keys `title`, `body`, `labels`, `assignees` in that order, and
an empty labels or assignees sequence serialises as the empty JSON array
under its key rather than the key being omitted. -/
theorem model_dump_shape (i : Issue) :
    i.model_dump.map Prod.fst = ["title", "body", "labels", "assignees"]
    ∧ (i.labels = [] → dictLookup i.model_dump "labels" = some (Json.arr []))
    ∧ (i.assignees = [] → dictLookup i.model_dump "assignees" = some (Json.arr [])) := by
  refine ⟨rfl, fun h => ?_, fun h => ?_⟩ <;> simp [Issue.model_dump, dictLookup, h]

/-- Witness for C8 at an Issue with empty labels and assignees. -/
theorem model_dump_shape_witness :
    (Issue.model_dump ⟨"t", "b", [], []⟩).map Prod.fst
        = ["title", "body", "labels", "assignees"]
    ∧ dictLookup (Issue.model_dump ⟨"t", "b", [], []⟩) "labels"
        = some (Json.arr [])
    ∧ dictLookup (Issue.model_dump ⟨"t", "b", [], []⟩) "assignees"
        = some (Json.arr []) :=
  ⟨(model_dump_shape ⟨"t", "b", [], []⟩).1,
   (model_dump_shape ⟨"t", "b", [], []⟩).2.1 rfl,
   (model_dump_shape ⟨"t", "b", [], []⟩).2.2 rfl⟩

/-- Counterexample to claim C6: at the error value with message `"m"`,
status code `0` and response text `""` (both fields present), `__str__`
yields `"IssueCreationError: m"` — not the claim's concatenation
`"m | Status code: 0 | Response: "` (the message is prefixed with
`"IssueCreationError: "`, and a present-but-falsy status code or body is
dropped), and not the bare message `"m"` either. -/
theorem display_string_counterexample :
    IssueCreationError.toDisplayString ⟨"m", some 0, some ""⟩
        = "IssueCreationError: m"
    ∧ IssueCreationError.toDisplayString ⟨"m", some 0, some ""⟩
        ≠ "m | Status code: 0 | Response: "
    ∧ IssueCreationError.toDisplayString ⟨"m", some 0, some ""⟩ ≠ "m" := by
  refine ⟨rfl, ?_, ?_⟩ <;> decide

/-- The string the amended claim C6 describes: `"IssueCreationError: "`,
then the message, then `" | Status code: <n>"` only when the status code is
present and nonzero, then `" | Response: <body>"` only when the body is
present and nonempty, in that order and nothing else. -/
def claimedDisplayString (e : IssueCreationError) : String :=
  "IssueCreationError: " ++ e.message
    ++ (match e.status_code with
        | some n => if n ≠ 0 then " | Status code: " ++ toString n else ""
        | none => "")
    ++ (match e.response_text with
        | some t => if t ≠ "" then " | Response: " ++ t else ""
        | none => "")

/-- Amended claim C6: for every error value, `__str__` yields exactly the
string described by `claimedDisplayString`. -/
theorem display_string_spec (e : IssueCreationError) :
    e.toDisplayString = claimedDisplayString e := by
  rcases e with ⟨m, sc, rt⟩
  rcases sc with _ | n <;> rcases rt with _ | t <;>
    simp only [IssueCreationError.toDisplayString, claimedDisplayString] <;>
    (try split_ifs) <;>
    simp_all [String.append_empty, String.append_assoc]

/-- Counterexample to claim C5: the empty string is a provided proxy
argument that is not a key-value mapping, yet construction succeeds and a
session (with empty proxy settings) is created, because the non-dict check
sits inside a truthiness test. -/
theorem init_falsy_proxy_counterexample :
    PyVal.isDict (PyVal.pyStr "") = false
    ∧ IssueCreator.init (some "tok") (some "owner") (some "repo") (PyVal.pyStr "")
        = Except.ok ⟨"tok", "owner", "repo", [], sessionHeaders "tok"⟩ :=
  ⟨rfl, rfl⟩

/-- Amended claim C5: for every proxy argument that is provided, *truthy*,
and not a key-value mapping, construction fails with a configuration error
(`ValueError`) — and hence no session is created, the session being built
only on the success path. -/
theorem init_truthy_nondict_proxy (token repo_owner repo_name : Option String)
    (proxy : PyVal) (ht : proxy.truthy = true) (hd : proxy.isDict = false) :
    ∃ m, IssueCreator.init token repo_owner repo_name proxy = Except.error m := by
  unfold IssueCreator.init
  simp [ht, hd]
  split_ifs <;> exact ⟨_, rfl⟩

/-- Witness for amended C5 at a truthy string proxy. -/
theorem init_truthy_nondict_proxy_witness :
    ∃ m, IssueCreator.init (some "tok") (some "owner") (some "repo")
        (PyVal.pyStr "http://proxy") = Except.error m :=
  init_truthy_nondict_proxy (some "tok") (some "owner") (some "repo")
    (PyVal.pyStr "http://proxy") rfl rfl

/-- Claim C1: on a 201 response whose JSON body carries the required fields
with their expected types, `create` succeeds, `repository_url` is
synthesised from the configured owner and repo (for every body, so never
taken from the response), and each remaining field is the deterministic
mapping from the body, with `author` equal to `user.login` when the `user`
object is present (absent when it has no `login`) and absent when `user` is
absent. -/
theorem create_201_mapping (repo_owner repo_name : String) (issue : Issue)
    (text : String) (o : List (String × Json))
    (u t s c : String) (i n : Int) (av : Option String)
    (hu : dictGet o "html_url" = Json.str u)
    (hi : dictGet o "id" = Json.num i)
    (hn : dictGet o "number" = Json.num n)
    (ht : dictGet o "title" = Json.str t)
    (hs : dictGet o "state" = Json.str s)
    (hc : dictGet o "created_at" = Json.str c)
    (ha : (dictLookup o "user" = none ∧ av = none)
          ∨ ∃ uo, dictLookup o "user" = some (Json.obj uo)
              ∧ ((dictGet uo "login" = Json.null ∧ av = none)
                 ∨ ∃ a, dictGet uo "login" = Json.str a ∧ av = some a)) :
    IssueCreator.create repo_owner repo_name issue
        (fun _ => Except.ok ⟨201, text, Json.obj o⟩)
      = Except.ok ⟨"https://github.com/" ++ repo_owner ++ "/" ++ repo_name,
          u, i, n, t, s, c, av⟩ := by
  have hempty : dictGet ([] : List (String × Json)) "login" = Json.null := rfl
  rcases ha with ⟨hau, hav⟩ | ⟨uo, hau, ⟨hl, hav⟩ | ⟨a, hl, hav⟩⟩ <;> subst hav
  · simp [IssueCreator.create, extractAuthor, dictGetD, hau, getLogin, hempty,
      IssueResponse.validate, vStr, vInt, vOptStr, hu, hi, hn, ht, hs, hc,
      Bind.bind, Except.bind, Pure.pure, Except.pure]
  · simp [IssueCreator.create, extractAuthor, dictGetD, hau, getLogin, hl,
      IssueResponse.validate, vStr, vInt, vOptStr, hu, hi, hn, ht, hs, hc,
      Bind.bind, Except.bind, Pure.pure, Except.pure]
  · simp [IssueCreator.create, extractAuthor, dictGetD, hau, getLogin, hl,
      IssueResponse.validate, vStr, vInt, vOptStr, hu, hi, hn, ht, hs, hc,
      Bind.bind, Except.bind, Pure.pure, Except.pure]

/-- Witness for C1 at a concrete 201 body with all fields and an author. -/
theorem create_201_mapping_witness :
    IssueCreator.create "own" "rep" ⟨"t", "b", [], []⟩
        (fun _ => Except.ok ⟨201, "raw",
          Json.obj [ ("html_url", Json.str "https://github.com/own/rep/issues/1")
                   , ("id", Json.num 5), ("number", Json.num 1)
                   , ("title", Json.str "T"), ("state", Json.str "open")
                   , ("created_at", Json.str "2020-01-01T00:00:00Z")
                   , ("user", Json.obj [("login", Json.str "bob")]) ]⟩)
      = Except.ok ⟨"https://github.com/" ++ "own" ++ "/" ++ "rep",
          "https://github.com/own/rep/issues/1", 5, 1, "T", "open",
          "2020-01-01T00:00:00Z", some "bob"⟩ :=
  create_201_mapping "own" "rep" ⟨"t", "b", [], []⟩ "raw" _ _ _ _ _ _ _ _
    rfl rfl rfl rfl rfl rfl (Or.inr ⟨_, rfl, Or.inr ⟨"bob", rfl, rfl⟩⟩)

/-- Helper: pydantic validation with a `null` (missing) `id` argument always
fails with a validation error, whatever the other arguments are. -/
theorem validate_null_id (r : String) (u n t s c a : Json) :
    ∃ f, IssueResponse.validate r u Json.null n t s c a
      = Except.error (CreateError.validation f) := by
  cases u
  case str s0 => exact ⟨"issue_id", rfl⟩
  all_goals exact ⟨"issue_url", rfl⟩

/-- Claim C9: a 201 response whose object body lacks the required `id`
field (and whose `user` entry, if present, is an object, so that argument
evaluation itself does not raise first) makes `create` fail with a pydantic
validation error — which is not the library's `IssueCreationError`; so not
every failure of `create` is a `SubmissionError`. -/
theorem create_missing_id_not_submission_error (repo_owner repo_name : String)
    (issue : Issue) (text : String) (o : List (String × Json))
    (huser : dictLookup o "user" = none
             ∨ ∃ uo, dictLookup o "user" = some (Json.obj uo))
    (hid : dictLookup o "id" = none) :
    (∃ f, IssueCreator.create repo_owner repo_name issue
        (fun _ => Except.ok ⟨201, text, Json.obj o⟩)
      = Except.error (CreateError.validation f))
    ∧ isSubmissionError (IssueCreator.create repo_owner repo_name issue
        (fun _ => Except.ok ⟨201, text, Json.obj o⟩)) = false := by
  have hget : dictGet o "id" = Json.null := by simp [dictGet, hid]
  have hmain : ∃ f, IssueCreator.create repo_owner repo_name issue
      (fun _ => Except.ok ⟨201, text, Json.obj o⟩)
      = Except.error (CreateError.validation f) := by
    rcases huser with h | ⟨uo, h⟩ <;>
      simp [IssueCreator.create, extractAuthor, dictGetD, h, getLogin, hget] <;>
      exact validate_null_id _ _ _ _ _ _ _
  refine ⟨hmain, ?_⟩
  obtain ⟨f, hf⟩ := hmain
  rw [hf]
  rfl

/-- Witness for C9 at a body with only `html_url` (no `id`, no `user`). -/
theorem create_missing_id_not_submission_error_witness :
    (∃ f, IssueCreator.create "own" "rep" ⟨"t", "b", [], []⟩
        (fun _ => Except.ok ⟨201, "raw",
          Json.obj [("html_url", Json.str "x")]⟩)
      = Except.error (CreateError.validation f))
    ∧ isSubmissionError (IssueCreator.create "own" "rep" ⟨"t", "b", [], []⟩
        (fun _ => Except.ok ⟨201, "raw",
          Json.obj [("html_url", Json.str "x")]⟩)) = false :=
  create_missing_id_not_submission_error "own" "rep" ⟨"t", "b", [], []⟩ "raw"
    [("html_url", Json.str "x")] (Or.inl rfl) rfl

/-- Claim C10: the author-extraction expression of line 97 is total exactly
on bodies whose `user` key is absent or maps to an object: an absent `user`
gives an absent author, a `user` object without `login` gives an absent
author (both as the Python `None`, i.e. `Json.null`), but a `user` key
present with the non-object value `null` makes the chained `.get("login")`
raise, and `create` on such a 201 body fails with an untyped runtime
error. -/
theorem author_extraction_totality (o : List (String × Json)) :
    (dictLookup o "user" = none → extractAuthor o = Except.ok Json.null)
    ∧ (∀ uo, dictLookup o "user" = some (Json.obj uo) →
        dictLookup uo "login" = none → extractAuthor o = Except.ok Json.null)
    ∧ (dictLookup o "user" = some Json.null → extractAuthor o = Except.error ())
    ∧ (∀ repo_owner repo_name issue text,
        dictLookup o "user" = some Json.null →
        IssueCreator.create repo_owner repo_name issue
            (fun _ => Except.ok ⟨201, text, Json.obj o⟩)
          = Except.error CreateError.runtime) := by
  refine ⟨fun h => ?_, fun uo h hl => ?_, fun h => ?_,
    fun repo_owner repo_name issue text h => ?_⟩
  · have h1 : dictGetD o "user" (Json.obj []) = Json.obj [] := by
      simp [dictGetD, h]
    simp [extractAuthor, h1, getLogin, dictGet, dictLookup]
  · have h1 : dictGetD o "user" (Json.obj []) = Json.obj uo := by
      simp [dictGetD, h]
    have h2 : dictGet uo "login" = Json.null := by
      simp [dictGet, hl]
    simp [extractAuthor, h1, getLogin, h2]
  · have h1 : dictGetD o "user" (Json.obj []) = Json.null := by
      simp [dictGetD, h]
    simp [extractAuthor, h1, getLogin]
  · have h1 : dictGetD o "user" (Json.obj []) = Json.null := by
      simp [dictGetD, h]
    simp [IssueCreator.create, extractAuthor, h1, getLogin]

/-- Witness for C10 exercising all three `user` shapes and the `create`
level failure on `user: null`. -/
theorem author_extraction_totality_witness :
    extractAuthor [] = Except.ok Json.null
    ∧ extractAuthor [("user", Json.obj [])] = Except.ok Json.null
    ∧ extractAuthor [("user", Json.null)] = Except.error ()
    ∧ IssueCreator.create "own" "rep" ⟨"t", "b", [], []⟩
        (fun _ => Except.ok ⟨201, "raw", Json.obj [("user", Json.null)]⟩)
      = Except.error CreateError.runtime :=
  ⟨(author_extraction_totality []).1 rfl,
   (author_extraction_totality [("user", Json.obj [])]).2.1 [] rfl rfl,
   (author_extraction_totality [("user", Json.null)]).2.2.1 rfl,
   (author_extraction_totality [("user", Json.null)]).2.2.2 "own" "rep"
     ⟨"t", "b", [], []⟩ "raw" rfl⟩
